import Mathlib

/-!
Shallow embedding of `src/src/emails/utils/task-notify.ts`: the `notifyUser`
email helper and the five Express task controllers
(`createTaskController`, `updateTaskController`, `getAllTasksController`,
`getTaskByIdController`, `deleteTaskController`).

External collaborators (validation schemas, `getMemberRoleInWorkspace`,
`roleGuard`, the task services, `UserModel.findById`, the Resend client) are
not in the repository; they appear either as environment-supplied functions
(quantified over in the theorems) or, where a claim depends on their
behaviour, as definitions modelled from the spec and marked as such.
Controllers are pure functions threading an abstract `Store` and emitting an
event trace recording side-effectful calls, so that ordering, frame and
counting properties can be stated.
-/

namespace TaskNotify

/-- The permission enum referenced by the controllers
(`Permissions.CREATE_TASK` etc. from `../enums/role.enum`). -/
inductive Permissions
  | CREATE_TASK
  | EDIT_TASK
  | DELETE_TASK
  | VIEW_ONLY
deriving DecidableEq, Repr

/-- A caller's role in a workspace: a set of permitted actions
(spec §3: "each role maps to a set of permitted actions"). -/
structure Role where
  permissions : List Permissions
deriving DecidableEq, Repr

/-- Errors surfaced through the shared async error-handling wrapper. -/
inductive Err
  | validation
  | notMember
  | unauthorized
  | serviceError
deriving DecidableEq, Repr

/-- Modelled from the spec: `roleGuard` (external `../utils/roleGuard`)
"throws/rejects if the role lacks a required permission" (spec §2). -/
def roleGuard (role : Role) (required : List Permissions) : Except Err Unit :=
  if required.all (fun p => decide (p ∈ role.permissions)) then Except.ok ()
  else Except.error Err.unauthorized

/-- Failure of the external email provider call. -/
inductive ProviderError
  | sendFailed
deriving DecidableEq, Repr

/-- A task as surfaced by the controllers (title and description are the
fields the shown code reads). -/
structure Task where
  title : String
  description : String
deriving DecidableEq, Repr

/-- A user: looked up by id to obtain an assignee's name and email. -/
structure User where
  name : String
  email : String
deriving DecidableEq, Repr

/-- Result of `createTaskSchema.parse`: the fields the controller reads. -/
structure CreateTaskBody where
  title : String
  description : String
  assignedTo : String
deriving DecidableEq, Repr

/-- Result of `updateTaskSchema.parse` (opaque to the controller; it is
passed through to the update service). -/
structure UpdateTaskBody where
  title : String
  description : String
deriving DecidableEq, Repr

/-- The `EmailParams` interface of the email helper module. -/
structure EmailParams where
  userEmail : String
  subject : String
  message : String
deriving DecidableEq, Repr

/-- The payload `notifyUser` hands to `resend.emails.send` (the source field
`from` is a Lean keyword, rendered here as `fromAddr`). -/
structure SendRequest where
  fromAddr : String
  toAddr : String
  subject : String
  html : String
deriving DecidableEq, Repr

/-- The send payload built inside `notifyUser` from its `EmailParams`. -/
def sendRequestOf (p : EmailParams) : SendRequest :=
  { fromAddr := "no-reply@techriserwanda.org"
    toAddr := p.userEmail
    subject := p.subject
    html := p.message }

/-- Abstract persistent state: tasks and users keyed by id. -/
structure Store where
  tasks : List (String × Task)
  users : List (String × User)
deriving DecidableEq, Repr

/-- Filter object built by `getAllTasksController` from the query string. -/
structure Filters where
  projectId : Option String
  status : Option (List String)
  priority : Option (List String)
  assignedTo : Option (List String)
  keyword : Option String
  dueDate : Option String
deriving DecidableEq, Repr

/-- Pagination object built by `getAllTasksController`. -/
structure Pagination where
  pageSize : Int
  pageNumber : Int
deriving DecidableEq, Repr

/-- Result returned by the external listing service and spread into the
response body. -/
structure ListResult where
  tasks : List Task
  totalCount : Nat
deriving DecidableEq, Repr

/-- Events recording the side-effectful calls a controller makes, in order. -/
inductive Event
  | createTaskCall (workspaceId projectId userId : String) (body : CreateTaskBody)
  | updateTaskCall (workspaceId projectId taskId : String) (body : UpdateTaskBody)
  | deleteTaskCall (workspaceId taskId : String)
  | getAllTasksCall (filters : Filters) (pagination : Pagination)
  | getTaskByIdCall (workspaceId projectId taskId : String)
  | findUserCall (userId : String)
  | emailAttempt (request : SendRequest)
  | logInfo (msg : String)
  | logError (msg : String)
deriving DecidableEq, Repr

/-- The subjects of the email send attempts in a trace, in order. -/
def emailAttemptSubjects (es : List Event) : List String :=
  es.filterMap (fun e =>
    match e with
    | Event.emailAttempt r => some r.subject
    | _ => none)

/-- `HTTPSTATUS.OK` from the shared HTTP-status constant set. -/
def HTTPSTATUS_OK : Nat := 200

/-- `HTTPSTATUS.BAD_REQUEST` from the shared HTTP-status constant set. -/
def HTTPSTATUS_BAD_REQUEST : Nat := 400

/-- A JSON response: status code, `message` field, and the optional
`task` / listing payload fields. -/
structure Response where
  status : Nat
  message : String
  task : Option Task
  list : Option ListResult
deriving DecidableEq, Repr

/-- The external collaborators a request handler calls, as functions.
Service functions take and (for writes) return the `Store`; reads return no
store, reflecting spec §3/§4: the services perform the reads and writes and
the lookups are read-only. -/
structure Env where
  getMemberRoleInWorkspace : String → String → Except Err Role
  createTaskService : String → String → String → CreateTaskBody → Store → Except Err (Task × Store)
  updateTaskService : String → String → String → UpdateTaskBody → Store → Except Err (Task × Store)
  deleteTaskService : String → String → Store → Except Err Store
  getAllTasksService : String → Filters → Pagination → Store → Except Err ListResult
  getTaskByIdService : String → String → String → Store → Except Err Task
  findById : String → Store → Option User
  emailProvider : SendRequest → Except ProviderError Unit
  frontendOrigin : String

/-- The `notifyUser` helper: sends one email through the provider inside a
try/catch; both on success and on failure it logs and returns normally
(lines 15-29 of the source). Returns the promise outcome and the events. -/
def notifyUser (provider : SendRequest → Except ProviderError Unit) (p : EmailParams) :
    Except ProviderError Unit × List Event :=
  match provider (sendRequestOf p) with
  | Except.ok _ =>
      (Except.ok (), [Event.emailAttempt (sendRequestOf p), Event.logInfo "Email sent successfully:"])
  | Except.error _ =>
      (Except.ok (), [Event.emailAttempt (sendRequestOf p), Event.logError "Error sending email:"])

/-- The HTML body composed at lines 87-95 of the source. -/
def emailMessage (frontendOrigin workspaceId projectId : String) (task : Task) (userName : String) : String :=
  "\n      <p>Hello " ++ userName ++ ",</p>\n      " ++
  "<p>You have been assigned a new task. <strong><a href=https://" ++ frontendOrigin ++
  "/workspace/" ++ workspaceId ++ "/project/" ++ projectId ++
  ">View Project</a></strong>.</p>\n      " ++
  "<p><strong>Task Details:</strong></p>\n      " ++
  "<p><strong>Title:</strong> " ++ task.title ++ "</p>\n      " ++
  "<p><strong>Description:</strong> " ++ task.description ++ "</p>\n      " ++
  "<p>Please check the task board for further details.</p>\n      " ++
  "<p>Best regards,<br/>TechRise Bot.</p>\n    "

/-- The email parameters `createTaskController` composes for the assignee
(subject at source line 86, body at lines 87-95). -/
def taskEmailParams (frontendOrigin workspaceId projectId : String) (task : Task) (user : User) :
    EmailParams :=
  { userEmail := user.email
    subject := "Task Assigned: " ++ task.title
    message := emailMessage frontendOrigin workspaceId projectId task user.name }

/-- A create-task request after the framework layer: the `userid` header and
the outcomes of the schema parses (validation is external; a parse failure
propagates as a thrown error). -/
structure CreateTaskRequest where
  userId : String
  body : Except Err CreateTaskBody
  projectId : Except Err String
  workspaceId : Except Err String

/-- `createTaskController` (source lines 56-111): parse, resolve role,
guard CREATE_TASK, create the task, look up the assignee (400 if absent,
with the creation kept), compose and attempt the notification inside a
try/catch, respond 200. -/
def createTaskController (env : Env) (req : CreateTaskRequest) (s : Store) :
    Except Err Response × Store × List Event :=
  match req.body with
  | Except.error e => (Except.error e, s, [])
  | Except.ok body =>
    match req.projectId with
    | Except.error e => (Except.error e, s, [])
    | Except.ok projectId =>
      match req.workspaceId with
      | Except.error e => (Except.error e, s, [])
      | Except.ok workspaceId =>
        match env.getMemberRoleInWorkspace req.userId workspaceId with
        | Except.error e => (Except.error e, s, [])
        | Except.ok role =>
          match roleGuard role [Permissions.CREATE_TASK] with
          | Except.error e => (Except.error e, s, [])
          | Except.ok _ =>
            match env.createTaskService workspaceId projectId req.userId body s with
            | Except.error e =>
                (Except.error e, s, [Event.createTaskCall workspaceId projectId req.userId body])
            | Except.ok (task, s1) =>
              match env.findById body.assignedTo s1 with
              | none =>
                  (Except.ok { status := HTTPSTATUS_BAD_REQUEST
                               message := "Assigned user not found."
                               task := none
                               list := none },
                   s1,
                   [Event.createTaskCall workspaceId projectId req.userId body,
                    Event.findUserCall body.assignedTo])
              | some assignedUser =>
                  let subject := "Task Assigned: " ++ task.title
                  let message := emailMessage env.frontendOrigin workspaceId projectId task assignedUser.name
                  let params : EmailParams :=
                    { userEmail := assignedUser.email, subject := subject, message := message }
                  let notif := notifyUser env.emailProvider params
                  let catchEvents : List Event :=
                    match notif.1 with
                    | Except.ok _ => []
                    | Except.error _ => [Event.logError "Error sending email:"]
                  (Except.ok { status := HTTPSTATUS_OK
                               message := "Task created successfully and notification sent."
                               task := some task
                               list := none },
                   s1,
                   [Event.createTaskCall workspaceId projectId req.userId body,
                    Event.findUserCall body.assignedTo] ++ notif.2 ++ catchEvents)

/-- An update-task request after the framework layer. -/
structure UpdateTaskRequest where
  userId : String
  body : Except Err UpdateTaskBody
  taskId : Except Err String
  projectId : Except Err String
  workspaceId : Except Err String

/-- `updateTaskController` (source lines 113-138): parse body and ids,
resolve role, guard EDIT_TASK, delegate to the update service, respond 200
with the updated task. -/
def updateTaskController (env : Env) (req : UpdateTaskRequest) (s : Store) :
    Except Err Response × Store × List Event :=
  match req.body with
  | Except.error e => (Except.error e, s, [])
  | Except.ok body =>
    match req.taskId with
    | Except.error e => (Except.error e, s, [])
    | Except.ok taskId =>
      match req.projectId with
      | Except.error e => (Except.error e, s, [])
      | Except.ok projectId =>
        match req.workspaceId with
        | Except.error e => (Except.error e, s, [])
        | Except.ok workspaceId =>
          match env.getMemberRoleInWorkspace req.userId workspaceId with
          | Except.error e => (Except.error e, s, [])
          | Except.ok role =>
            match roleGuard role [Permissions.EDIT_TASK] with
            | Except.error e => (Except.error e, s, [])
            | Except.ok _ =>
              match env.updateTaskService workspaceId projectId taskId body s with
              | Except.error e =>
                  (Except.error e, s, [Event.updateTaskCall workspaceId projectId taskId body])
              | Except.ok (updatedTask, s1) =>
                  (Except.ok { status := HTTPSTATUS_OK
                               message := "Task updated successfully"
                               task := some updatedTask
                               list := none },
                   s1,
                   [Event.updateTaskCall workspaceId projectId taskId body])

/-- The raw query-string parameters read by `getAllTasksController`
(`none` when the parameter is absent from the URL; an empty parameter such
as `?status=` arrives as `some ""`). -/
structure Query where
  projectId : Option String
  status : Option String
  priority : Option String
  assignedTo : Option String
  keyword : Option String
  dueDate : Option String
  pageSize : Option String
  pageNumber : Option String
deriving DecidableEq, Repr

/-- Recursion for `jsSplit`: split the remaining characters at `sep`,
`acc` holding the current piece reversed. -/
def jsSplitAux (sep : Char) : List Char → List Char → List String
  | [], acc => [String.mk acc.reverse]
  | c :: rest, acc =>
      if c = sep then String.mk acc.reverse :: jsSplitAux sep rest []
      else jsSplitAux sep rest (c :: acc)

/-- JS `String.prototype.split` with a one-character separator: cuts at
every occurrence, keeping empty pieces (`"".split(",")` is `[""]`). -/
def jsSplit (sep : Char) (str : String) : List String :=
  jsSplitAux sep str.data []

/-- The JS expression `q ? q.split(",") : undefined`: an absent parameter
and a present-but-empty one (falsy in JS) both give `undefined`. -/
def jsSplitParam (v : Option String) : Option (List String) :=
  match v with
  | none => none
  | some str => if str = "" then none else some (jsSplit ',' str)

/-- Value of a run of decimal digits; `none` when the run is empty. -/
def parseDigits (cs : List Char) : Option Nat :=
  let ds := cs.takeWhile Char.isDigit
  if ds.isEmpty then none
  else some (ds.foldl (fun acc c => acc * 10 + (c.toNat - 48)) 0)

/-- JS `parseInt` on a decimal string: skip leading whitespace, an optional
sign, then the longest digit prefix; `none` models `NaN`. -/
def parseIntJS (str : String) : Option Int :=
  match str.data.dropWhile Char.isWhitespace with
  | '-' :: rest => (parseDigits rest).map (fun n => -(n : Int))
  | '+' :: rest => (parseDigits rest).map (fun n => (n : Int))
  | cs => (parseDigits cs).map (fun n => (n : Int))

/-- The JS `x || d` default: `d` when `x` is falsy (`NaN`, modelled `none`,
or `0`). -/
def jsOrDefault (v : Option Int) (d : Int) : Int :=
  match v with
  | none => d
  | some n => if n = 0 then d else n

/-- The filter object built at source lines 146-159. -/
def buildFilters (q : Query) : Filters :=
  { projectId := q.projectId
    status := jsSplitParam q.status
    priority := jsSplitParam q.priority
    assignedTo := jsSplitParam q.assignedTo
    keyword := q.keyword
    dueDate := q.dueDate }

/-- The pagination object built at source lines 161-164:
`parseInt(...) || 10` and `parseInt(...) || 1`. -/
def buildPagination (q : Query) : Pagination :=
  { pageSize := jsOrDefault (q.pageSize.bind parseIntJS) 10
    pageNumber := jsOrDefault (q.pageNumber.bind parseIntJS) 1 }

/-- Filter construction as the claim words it: the status, priority and
assignedTo parameters are split on commas, `undefined` (only) when absent.
Stated from the spec, for comparison with `buildFilters`. -/
def claimFilters (q : Query) : Filters :=
  { projectId := q.projectId
    status := q.status.map (fun str => jsSplit ',' str)
    priority := q.priority.map (fun str => jsSplit ',' str)
    assignedTo := q.assignedTo.map (fun str => jsSplit ',' str)
    keyword := q.keyword
    dueDate := q.dueDate }

/-- Filter construction as amended: split on commas when the parameter is
present and nonempty; `undefined` when absent or empty. -/
def claimFiltersAmended (q : Query) : Filters :=
  { projectId := q.projectId
    status := q.status.bind (fun str => if str = "" then none else some (jsSplit ',' str))
    priority := q.priority.bind (fun str => if str = "" then none else some (jsSplit ',' str))
    assignedTo := q.assignedTo.bind (fun str => if str = "" then none else some (jsSplit ',' str))
    keyword := q.keyword
    dueDate := q.dueDate }

/-- A list-tasks request after the framework layer. -/
structure ListTasksRequest where
  userId : String
  workspaceId : Except Err String
  query : Query

/-- `getAllTasksController` (source lines 140-176): parse the workspace id,
build filters and pagination from the query, resolve role, guard VIEW_ONLY,
delegate to the listing service, respond 200 with the merged result. -/
def getAllTasksController (env : Env) (req : ListTasksRequest) (s : Store) :
    Except Err Response × Store × List Event :=
  match req.workspaceId with
  | Except.error e => (Except.error e, s, [])
  | Except.ok workspaceId =>
    let filters := buildFilters req.query
    let pagination := buildPagination req.query
    match env.getMemberRoleInWorkspace req.userId workspaceId with
    | Except.error e => (Except.error e, s, [])
    | Except.ok role =>
      match roleGuard role [Permissions.VIEW_ONLY] with
      | Except.error e => (Except.error e, s, [])
      | Except.ok _ =>
        match env.getAllTasksService workspaceId filters pagination s with
        | Except.error e => (Except.error e, s, [Event.getAllTasksCall filters pagination])
        | Except.ok result =>
            (Except.ok { status := HTTPSTATUS_OK
                         message := "All tasks fetched successfully"
                         task := none
                         list := some result },
             s,
             [Event.getAllTasksCall filters pagination])

/-- A get-task-by-id request after the framework layer. -/
structure GetTaskByIdRequest where
  userId : String
  taskId : Except Err String
  projectId : Except Err String
  workspaceId : Except Err String

/-- `getTaskByIdController` (source lines 178-196): parse ids, resolve role,
guard VIEW_ONLY, fetch the task via the (read-only) service, respond 200. -/
def getTaskByIdController (env : Env) (req : GetTaskByIdRequest) (s : Store) :
    Except Err Response × Store × List Event :=
  match req.taskId with
  | Except.error e => (Except.error e, s, [])
  | Except.ok taskId =>
    match req.projectId with
    | Except.error e => (Except.error e, s, [])
    | Except.ok projectId =>
      match req.workspaceId with
      | Except.error e => (Except.error e, s, [])
      | Except.ok workspaceId =>
        match env.getMemberRoleInWorkspace req.userId workspaceId with
        | Except.error e => (Except.error e, s, [])
        | Except.ok role =>
          match roleGuard role [Permissions.VIEW_ONLY] with
          | Except.error e => (Except.error e, s, [])
          | Except.ok _ =>
            match env.getTaskByIdService workspaceId projectId taskId s with
            | Except.error e => (Except.error e, s, [Event.getTaskByIdCall workspaceId projectId taskId])
            | Except.ok task =>
                (Except.ok { status := HTTPSTATUS_OK
                             message := "Task fetched successfully"
                             task := some task
                             list := none },
                 s,
                 [Event.getTaskByIdCall workspaceId projectId taskId])

/-- A delete-task request after the framework layer (no project id on this
route). -/
structure DeleteTaskRequest where
  userId : String
  taskId : Except Err String
  workspaceId : Except Err String

/-- `deleteTaskController` (source lines 198-214): parse ids, resolve role,
guard DELETE_TASK, delegate to the delete service, respond 200. -/
def deleteTaskController (env : Env) (req : DeleteTaskRequest) (s : Store) :
    Except Err Response × Store × List Event :=
  match req.taskId with
  | Except.error e => (Except.error e, s, [])
  | Except.ok taskId =>
    match req.workspaceId with
    | Except.error e => (Except.error e, s, [])
    | Except.ok workspaceId =>
      match env.getMemberRoleInWorkspace req.userId workspaceId with
      | Except.error e => (Except.error e, s, [])
      | Except.ok role =>
        match roleGuard role [Permissions.DELETE_TASK] with
        | Except.error e => (Except.error e, s, [])
        | Except.ok _ =>
          match env.deleteTaskService workspaceId taskId s with
          | Except.error e => (Except.error e, s, [Event.deleteTaskCall workspaceId taskId])
          | Except.ok s1 =>
              (Except.ok { status := HTTPSTATUS_OK
                           message := "Task deleted successfully"
                           task := none
                           list := none },
               s1,
               [Event.deleteTaskCall workspaceId taskId])

/-! ### Concrete fixtures used by the witnesses -/

/-- A user on record, assignable to tasks. -/
def testUser : User := { name := "Alice", email := "alice@example.com" }

/-- A role holding every permission. -/
def fullRole : Role :=
  { permissions := [Permissions.CREATE_TASK, Permissions.EDIT_TASK,
                    Permissions.DELETE_TASK, Permissions.VIEW_ONLY] }

/-- A role holding only VIEW_ONLY (lacks every mutating permission). -/
def viewOnlyRole : Role := { permissions := [Permissions.VIEW_ONLY] }

/-- Initial store: no tasks, one user with id `u2`. -/
def testStore : Store := { tasks := [], users := [("u2", testUser)] }

/-- The task the concrete create service persists for `testCreateBody`. -/
def testCreatedTask : Task := { title := "T1", description := "D1" }

/-- A concrete environment: full-permission caller, services that persist
into the store, user lookup by association list, succeeding provider. -/
def testEnv : Env :=
  { getMemberRoleInWorkspace := fun _ _ => Except.ok fullRole
    createTaskService := fun _ _ _ body s =>
      Except.ok ({ title := body.title, description := body.description },
                 { tasks := ("t1", { title := body.title, description := body.description }) :: s.tasks
                   users := s.users })
    updateTaskService := fun _ _ _ body s =>
      Except.ok ({ title := body.title, description := body.description }, s)
    deleteTaskService := fun _ _ s => Except.ok s
    getAllTasksService := fun _ _ _ _ => Except.ok { tasks := [], totalCount := 0 }
    getTaskByIdService := fun _ _ _ _ => Except.ok testCreatedTask
    findById := fun uid s => (s.users.find? (fun kv => kv.1 = uid)).map (fun kv => kv.2)
    emailProvider := fun _ => Except.ok ()
    frontendOrigin := "app.example.com" }

/-- `testEnv` with a caller who only holds VIEW_ONLY. -/
def testEnvViewOnly : Env :=
  { testEnv with getMemberRoleInWorkspace := fun _ _ => Except.ok viewOnlyRole }

/-- `testEnv` with a failing email provider. -/
def testEnvFail : Env :=
  { testEnv with emailProvider := fun _ => Except.error ProviderError.sendFailed }

/-- A valid create-task body whose assignee resolves in `testStore`. -/
def testCreateBody : CreateTaskBody := { title := "T1", description := "D1", assignedTo := "u2" }

/-- A valid create-task request with a resolvable assignee. -/
def testCreateReq : CreateTaskRequest :=
  { userId := "u1", body := Except.ok testCreateBody
    projectId := Except.ok "p1", workspaceId := Except.ok "w1" }

/-- A create-task body whose assignee id resolves to no user. -/
def ghostBody : CreateTaskBody := { title := "T1", description := "D1", assignedTo := "ghost" }

/-- A create-task request whose assignee id resolves to no user. -/
def ghostCreateReq : CreateTaskRequest :=
  { testCreateReq with body := Except.ok ghostBody }

/-- The store `testEnv.createTaskService` produces from `testStore`. -/
def storeAfterCreate : Store :=
  { tasks := [("t1", testCreatedTask)], users := [("u2", testUser)] }

/-- A valid update-task request. -/
def testUpdateReq : UpdateTaskRequest :=
  { userId := "u1", body := Except.ok { title := "T2", description := "D2" }
    taskId := Except.ok "t1", projectId := Except.ok "p1", workspaceId := Except.ok "w1" }

/-- A valid delete-task request. -/
def testDeleteReq : DeleteTaskRequest :=
  { userId := "u1", taskId := Except.ok "t1", workspaceId := Except.ok "w1" }

/-- A valid get-task-by-id request. -/
def testGetReq : GetTaskByIdRequest :=
  { userId := "u1", taskId := Except.ok "t1"
    projectId := Except.ok "p1", workspaceId := Except.ok "w1" }

/-- The query string of the claim's example:
`status=a,b&priority=x&pageSize=5&pageNumber=2`. -/
def exampleQuery : Query :=
  { projectId := none, status := some "a,b", priority := some "x"
    assignedTo := none, keyword := none, dueDate := none
    pageSize := some "5", pageNumber := some "2" }

/-- A query with every parameter absent. -/
def emptyQuery : Query :=
  { projectId := none, status := none, priority := none
    assignedTo := none, keyword := none, dueDate := none
    pageSize := none, pageNumber := none }

/-- A query whose status parameter is present but empty (`?status=`). -/
def emptyStatusQuery : Query := { emptyQuery with status := some "" }

/-- A valid list-tasks request carrying the example query. -/
def testListReq : ListTasksRequest :=
  { userId := "u1", workspaceId := Except.ok "w1", query := exampleQuery }

/-- A query requesting `pageSize=0` and a non-numeric `pageNumber`. -/
def zeroNanQuery : Query :=
  { emptyQuery with pageSize := some "0", pageNumber := some "abc" }

/-! ### Helper lemmas -/

/-- `roleGuard` passes a single required permission the role holds. -/
theorem roleGuard_ok (role : Role) (p : Permissions) (h : p ∈ role.permissions) :
    roleGuard role [p] = Except.ok () := by
  simp [roleGuard, h]

/-- `roleGuard` rejects when the single required permission is missing. -/
theorem roleGuard_missing (role : Role) (p : Permissions) (h : p ∉ role.permissions) :
    roleGuard role [p] = Except.error Err.unauthorized := by
  simp [roleGuard, h]

/-- The promise returned by `notifyUser` is fulfilled for every provider
outcome. -/
theorem notifyUser_fst (provider : SendRequest → Except ProviderError Unit) (p : EmailParams) :
    (notifyUser provider p).1 = Except.ok () := by
  unfold notifyUser
  cases provider (sendRequestOf p) <;> rfl

/-- Each `notifyUser` call contributes exactly one email attempt, with the
subject it was given. -/
theorem notifyUser_subjects (provider : SendRequest → Except ProviderError Unit) (p : EmailParams) :
    emailAttemptSubjects (notifyUser provider p).2 = [p.subject] := by
  unfold notifyUser
  cases provider (sendRequestOf p) <;> simp [emailAttemptSubjects, sendRequestOf]

/-- `emailAttemptSubjects` distributes over trace concatenation. -/
theorem emailAttemptSubjects_append (a b : List Event) :
    emailAttemptSubjects (a ++ b) = emailAttemptSubjects a ++ emailAttemptSubjects b := by
  simp [emailAttemptSubjects]

/-- `jsSplitParam` written with `Option.bind`. -/
theorem jsSplitParam_eq (v : Option String) :
    jsSplitParam v = v.bind (fun str => if str = "" then none else some (jsSplit ',' str)) := by
  cases v <;> rfl

/-! ### Claim theorems -/

/-- C4: for every input and every outcome of the external provider call,
`notifyUser` resolves normally (`Except.ok ()`) and never rejects; when the
provider call fails, the error is caught and logged, so the caller cannot
observe the failure through the returned outcome. -/
theorem notifyUser_never_rejects
    (provider : SendRequest → Except ProviderError Unit) (p : EmailParams) :
    (notifyUser provider p).1 = Except.ok () ∧
    (∀ e, provider (sendRequestOf p) = Except.error e →
      Event.logError "Error sending email:" ∈ (notifyUser provider p).2) := by
  unfold notifyUser
  cases h : provider (sendRequestOf p) <;> simp

/-- Witness: a provider that always fails; `notifyUser` still resolves and
logs the failure. -/
theorem notifyUser_never_rejects_witness :
    (notifyUser (fun _ => Except.error ProviderError.sendFailed)
        { userEmail := "alice@example.com", subject := "s", message := "m" }).1 = Except.ok () ∧
    Event.logError "Error sending email:" ∈
      (notifyUser (fun _ => Except.error ProviderError.sendFailed)
        { userEmail := "alice@example.com", subject := "s", message := "m" }).2 :=
  ⟨(notifyUser_never_rejects (fun _ => Except.error ProviderError.sendFailed)
      { userEmail := "alice@example.com", subject := "s", message := "m" }).1,
   (notifyUser_never_rejects (fun _ => Except.error ProviderError.sendFailed)
      { userEmail := "alice@example.com", subject := "s", message := "m" }).2
     ProviderError.sendFailed rfl⟩

/-- C1: in every mutating controller (create, update, delete task), when
the caller's resolved role lacks the required permission (CREATE_TASK,
EDIT_TASK, DELETE_TASK respectively), the controller surfaces the
authorization failure, leaves the store unchanged, and makes no
side-effectful call: in particular the corresponding task service is never
invoked. -/
theorem mutating_controllers_authorize_before_side_effects :
    (∀ (env : Env) (req : CreateTaskRequest) (s : Store) (body : CreateTaskBody)
        (pid wsId : String) (role : Role),
      req.body = Except.ok body →
      req.projectId = Except.ok pid →
      req.workspaceId = Except.ok wsId →
      env.getMemberRoleInWorkspace req.userId wsId = Except.ok role →
      Permissions.CREATE_TASK ∉ role.permissions →
      createTaskController env req s = (Except.error Err.unauthorized, s, [])) ∧
    (∀ (env : Env) (req : UpdateTaskRequest) (s : Store) (body : UpdateTaskBody)
        (tid pid wsId : String) (role : Role),
      req.body = Except.ok body →
      req.taskId = Except.ok tid →
      req.projectId = Except.ok pid →
      req.workspaceId = Except.ok wsId →
      env.getMemberRoleInWorkspace req.userId wsId = Except.ok role →
      Permissions.EDIT_TASK ∉ role.permissions →
      updateTaskController env req s = (Except.error Err.unauthorized, s, [])) ∧
    (∀ (env : Env) (req : DeleteTaskRequest) (s : Store)
        (tid wsId : String) (role : Role),
      req.taskId = Except.ok tid →
      req.workspaceId = Except.ok wsId →
      env.getMemberRoleInWorkspace req.userId wsId = Except.ok role →
      Permissions.DELETE_TASK ∉ role.permissions →
      deleteTaskController env req s = (Except.error Err.unauthorized, s, [])) := by
  refine ⟨?_, ?_, ?_⟩
  · intro env req s body pid wsId role hb hp hw hr hperm
    simp only [createTaskController, hb, hp, hw, hr,
      roleGuard_missing role Permissions.CREATE_TASK hperm]
  · intro env req s body tid pid wsId role hb ht hp hw hr hperm
    simp only [updateTaskController, hb, ht, hp, hw, hr,
      roleGuard_missing role Permissions.EDIT_TASK hperm]
  · intro env req s tid wsId role ht hw hr hperm
    simp only [deleteTaskController, ht, hw, hr,
      roleGuard_missing role Permissions.DELETE_TASK hperm]

/-- Witness: a VIEW_ONLY caller is rejected by all three mutating
controllers with no mutation and no service call. -/
theorem mutating_controllers_authorize_before_side_effects_witness :
    createTaskController testEnvViewOnly testCreateReq testStore
      = (Except.error Err.unauthorized, testStore, []) ∧
    updateTaskController testEnvViewOnly testUpdateReq testStore
      = (Except.error Err.unauthorized, testStore, []) ∧
    deleteTaskController testEnvViewOnly testDeleteReq testStore
      = (Except.error Err.unauthorized, testStore, []) :=
  ⟨mutating_controllers_authorize_before_side_effects.1 testEnvViewOnly testCreateReq testStore
      testCreateBody "p1" "w1" viewOnlyRole rfl rfl rfl rfl (by decide),
   mutating_controllers_authorize_before_side_effects.2.1 testEnvViewOnly testUpdateReq testStore
      { title := "T2", description := "D2" } "t1" "p1" "w1" viewOnlyRole rfl rfl rfl rfl rfl (by decide),
   mutating_controllers_authorize_before_side_effects.2.2 testEnvViewOnly testDeleteReq testStore
      "t1" "w1" viewOnlyRole rfl rfl rfl (by decide)⟩

/-- C2: when a create-task request passes validation and authorization, the
task service succeeds, but the assignee id resolves to no user, the
response is 400 with message "Assigned user not found." — and the final
store is the one the task service produced: the creation is kept, not
rolled back, on this error path. -/
theorem createTask_assignee_not_found_task_persisted
    (env : Env) (req : CreateTaskRequest) (s : Store) (body : CreateTaskBody)
    (pid wsId : String) (role : Role) (task : Task) (s1 : Store)
    (hb : req.body = Except.ok body)
    (hp : req.projectId = Except.ok pid)
    (hw : req.workspaceId = Except.ok wsId)
    (hr : env.getMemberRoleInWorkspace req.userId wsId = Except.ok role)
    (hperm : Permissions.CREATE_TASK ∈ role.permissions)
    (hcreate : env.createTaskService wsId pid req.userId body s = Except.ok (task, s1))
    (hfind : env.findById body.assignedTo s1 = none) :
    createTaskController env req s =
      (Except.ok { status := 400, message := "Assigned user not found.",
                   task := none, list := none },
       s1,
       [Event.createTaskCall wsId pid req.userId body,
        Event.findUserCall body.assignedTo]) := by
  simp only [createTaskController, hb, hp, hw, hr, roleGuard_ok role Permissions.CREATE_TASK hperm,
    hcreate, hfind, HTTPSTATUS_BAD_REQUEST]

/-- Witness: creating with assignee id `ghost` returns the 400 body while
the store keeps the created task. -/
theorem createTask_assignee_not_found_task_persisted_witness :
    createTaskController testEnv ghostCreateReq testStore =
      (Except.ok { status := 400, message := "Assigned user not found.",
                   task := none, list := none },
       storeAfterCreate,
       [Event.createTaskCall "w1" "p1" "u1" ghostBody, Event.findUserCall "ghost"]) :=
  createTask_assignee_not_found_task_persisted testEnv ghostCreateReq testStore ghostBody
    "p1" "w1" fullRole testCreatedTask storeAfterCreate
    rfl rfl rfl rfl (by decide) rfl rfl

/-- C3: a valid create-task request whose assignee resolves gets a 200
response carrying the created task and the success message, and exactly one
email send is attempted, whose subject is "Task Assigned: " concatenated
with the task's title. -/
theorem createTask_success_response_and_single_email
    (env : Env) (req : CreateTaskRequest) (s : Store) (body : CreateTaskBody)
    (pid wsId : String) (role : Role) (task : Task) (s1 : Store) (user : User)
    (hb : req.body = Except.ok body)
    (hp : req.projectId = Except.ok pid)
    (hw : req.workspaceId = Except.ok wsId)
    (hr : env.getMemberRoleInWorkspace req.userId wsId = Except.ok role)
    (hperm : Permissions.CREATE_TASK ∈ role.permissions)
    (hcreate : env.createTaskService wsId pid req.userId body s = Except.ok (task, s1))
    (hfind : env.findById body.assignedTo s1 = some user) :
    (createTaskController env req s).1 =
      Except.ok { status := 200, message := "Task created successfully and notification sent.",
                  task := some task, list := none } ∧
    emailAttemptSubjects (createTaskController env req s).2.2
      = ["Task Assigned: " ++ task.title] := by
  simp only [createTaskController, hb, hp, hw, hr, roleGuard_ok role Permissions.CREATE_TASK hperm,
    hcreate, hfind, notifyUser_fst, HTTPSTATUS_OK]
  constructor
  · trivial
  · simp only [List.append_nil, emailAttemptSubjects_append, notifyUser_subjects]
    simp [emailAttemptSubjects]

/-- Witness: the concrete valid create request yields the 200 body and one
email attempt with subject "Task Assigned: T1". -/
theorem createTask_success_response_and_single_email_witness :
    (createTaskController testEnv testCreateReq testStore).1 =
      Except.ok { status := 200, message := "Task created successfully and notification sent.",
                  task := some testCreatedTask, list := none } ∧
    emailAttemptSubjects (createTaskController testEnv testCreateReq testStore).2.2
      = ["Task Assigned: " ++ testCreatedTask.title] :=
  createTask_success_response_and_single_email testEnv testCreateReq testStore testCreateBody
    "p1" "w1" fullRole testCreatedTask storeAfterCreate testUser
    rfl rfl rfl rfl (by decide) rfl rfl

/-- C5: on the resolvable-assignee path, a failing email provider does not
change the endpoint's result: the failure is logged and the controller
still returns the 200 success response with the created task. -/
theorem createTask_email_failure_still_success
    (env : Env) (req : CreateTaskRequest) (s : Store) (body : CreateTaskBody)
    (pid wsId : String) (role : Role) (task : Task) (s1 : Store) (user : User)
    (pe : ProviderError)
    (hb : req.body = Except.ok body)
    (hp : req.projectId = Except.ok pid)
    (hw : req.workspaceId = Except.ok wsId)
    (hr : env.getMemberRoleInWorkspace req.userId wsId = Except.ok role)
    (hperm : Permissions.CREATE_TASK ∈ role.permissions)
    (hcreate : env.createTaskService wsId pid req.userId body s = Except.ok (task, s1))
    (hfind : env.findById body.assignedTo s1 = some user)
    (hprov : env.emailProvider
        (sendRequestOf (taskEmailParams env.frontendOrigin wsId pid task user))
      = Except.error pe) :
    (createTaskController env req s).1 =
      Except.ok { status := 200, message := "Task created successfully and notification sent.",
                  task := some task, list := none } ∧
    Event.logError "Error sending email:" ∈ (createTaskController env req s).2.2 := by
  simp only [taskEmailParams] at hprov
  simp only [createTaskController, hb, hp, hw, hr, roleGuard_ok role Permissions.CREATE_TASK hperm,
    hcreate, hfind, HTTPSTATUS_OK]
  unfold notifyUser
  rw [hprov]
  simp

/-- Witness: with the failing provider, the concrete valid create request
still gets the 200 body and the failure is logged. -/
theorem createTask_email_failure_still_success_witness :
    (createTaskController testEnvFail testCreateReq testStore).1 =
      Except.ok { status := 200, message := "Task created successfully and notification sent.",
                  task := some testCreatedTask, list := none } ∧
    Event.logError "Error sending email:" ∈
      (createTaskController testEnvFail testCreateReq testStore).2.2 :=
  createTask_email_failure_still_success testEnvFail testCreateReq testStore testCreateBody
    "p1" "w1" fullRole testCreatedTask storeAfterCreate testUser ProviderError.sendFailed
    rfl rfl rfl rfl (by decide) rfl rfl rfl

/-- C9: on every path reaching the final response step, the success body's
message is the fixed string "Task created successfully and notification
sent.", for every email provider — the text asserts the notification was
sent even when the send failed. -/
theorem createTask_success_message_independent_of_provider
    (env : Env) (provider : SendRequest → Except ProviderError Unit)
    (req : CreateTaskRequest) (s : Store) (body : CreateTaskBody)
    (pid wsId : String) (role : Role) (task : Task) (s1 : Store) (user : User)
    (hb : req.body = Except.ok body)
    (hp : req.projectId = Except.ok pid)
    (hw : req.workspaceId = Except.ok wsId)
    (hr : env.getMemberRoleInWorkspace req.userId wsId = Except.ok role)
    (hperm : Permissions.CREATE_TASK ∈ role.permissions)
    (hcreate : env.createTaskService wsId pid req.userId body s = Except.ok (task, s1))
    (hfind : env.findById body.assignedTo s1 = some user) :
    (createTaskController { env with emailProvider := provider } req s).1 =
      Except.ok { status := 200, message := "Task created successfully and notification sent.",
                  task := some task, list := none } := by
  simp only [createTaskController, hb, hp, hw, hr, roleGuard_ok role Permissions.CREATE_TASK hperm,
    hcreate, hfind, HTTPSTATUS_OK]

/-- Witness: with an always-failing provider substituted into the
environment, the response message still reports the notification as
sent. -/
theorem createTask_success_message_independent_of_provider_witness :
    (createTaskController
        { testEnv with emailProvider := fun _ => Except.error ProviderError.sendFailed }
        testCreateReq testStore).1 =
      Except.ok { status := 200, message := "Task created successfully and notification sent.",
                  task := some testCreatedTask, list := none } :=
  createTask_success_message_independent_of_provider testEnv
    (fun _ => Except.error ProviderError.sendFailed) testCreateReq testStore testCreateBody
    "p1" "w1" fullRole testCreatedTask storeAfterCreate testUser
    rfl rfl rfl rfl (by decide) rfl rfl

/-- C7: the update controller performs no notification side effect on any
path — no email send is ever attempted — and on the success path it
validates, authorizes EDIT_TASK, delegates to the update service and
returns the updated task in a 200 response. -/
theorem updateTask_no_notification_and_returns_updated_task :
    (∀ (env : Env) (req : UpdateTaskRequest) (s : Store),
      emailAttemptSubjects (updateTaskController env req s).2.2 = []) ∧
    (∀ (env : Env) (req : UpdateTaskRequest) (s : Store) (body : UpdateTaskBody)
        (tid pid wsId : String) (role : Role) (task : Task) (s1 : Store),
      req.body = Except.ok body →
      req.taskId = Except.ok tid →
      req.projectId = Except.ok pid →
      req.workspaceId = Except.ok wsId →
      env.getMemberRoleInWorkspace req.userId wsId = Except.ok role →
      Permissions.EDIT_TASK ∈ role.permissions →
      env.updateTaskService wsId pid tid body s = Except.ok (task, s1) →
      updateTaskController env req s =
        (Except.ok { status := 200, message := "Task updated successfully",
                     task := some task, list := none },
         s1, [Event.updateTaskCall wsId pid tid body])) := by
  constructor
  · intro env req s
    unfold updateTaskController
    repeat' split
    all_goals simp [emailAttemptSubjects]
  · intro env req s body tid pid wsId role task s1 hb ht hp hw hr hperm hsvc
    simp only [updateTaskController, hb, ht, hp, hw, hr,
      roleGuard_ok role Permissions.EDIT_TASK hperm, hsvc, HTTPSTATUS_OK]

/-- Witness: the concrete valid update request is served with no email
attempt and the 200 updated-task response. -/
theorem updateTask_no_notification_and_returns_updated_task_witness :
    emailAttemptSubjects (updateTaskController testEnv testUpdateReq testStore).2.2 = [] ∧
    updateTaskController testEnv testUpdateReq testStore =
      (Except.ok { status := 200, message := "Task updated successfully",
                   task := some { title := "T2", description := "D2" }, list := none },
       testStore, [Event.updateTaskCall "w1" "p1" "t1" { title := "T2", description := "D2" }]) :=
  ⟨updateTask_no_notification_and_returns_updated_task.1 testEnv testUpdateReq testStore,
   updateTask_no_notification_and_returns_updated_task.2 testEnv testUpdateReq testStore
     { title := "T2", description := "D2" } "t1" "p1" "w1" fullRole
     { title := "T2", description := "D2" } testStore
     rfl rfl rfl rfl rfl (by decide) rfl⟩

/-- C8: the read path is deterministic and non-mutating: `getTaskById`
leaves the store unchanged, so issuing the same request twice with no
intervening mutation produces identical results (same response, same task
data). -/
theorem getTaskById_read_only_and_idempotent
    (env : Env) (req : GetTaskByIdRequest) (s : Store) :
    (getTaskByIdController env req s).2.1 = s ∧
    getTaskByIdController env req ((getTaskByIdController env req s).2.1)
      = getTaskByIdController env req s := by
  have h : (getTaskByIdController env req s).2.1 = s := by
    unfold getTaskByIdController
    repeat' split
    all_goals rfl
  exact ⟨h, by rw [h]⟩

/-- C6 counterexample: a present-but-empty status parameter (`?status=`)
is falsy in JS, so the code yields `undefined`, while splitting on commas
as the claim words it would yield `[""]`. -/
theorem getAllTasks_filters_empty_param_counterexample :
    buildFilters emptyStatusQuery ≠ claimFilters emptyStatusQuery ∧
    (buildFilters emptyStatusQuery).status = none ∧
    (claimFilters emptyStatusQuery).status = some [""] := by
  refine ⟨by decide, by decide, by decide⟩

/-- C6 (amended): the filter object is built by splitting the status,
priority, and assignedTo query parameters on commas when present and
nonempty (undefined when absent or empty); pagination defaults to pageSize
10 and pageNumber 1 when those parameters are omitted; and the query
`status=a,b&priority=x&pageSize=5&pageNumber=2` yields status
`["a","b"]`, priority `["x"]`, and pagination `{pageSize:5, pageNumber:2}`,
which the controller passes to the listing service. -/
theorem getAllTasks_filters_pagination_amended
    (q : Query) (env : Env) (req : ListTasksRequest) (s : Store) (role : Role)
    (result : ListResult) (wsId : String)
    (hq : req.query = exampleQuery)
    (hw : req.workspaceId = Except.ok wsId)
    (hr : env.getMemberRoleInWorkspace req.userId wsId = Except.ok role)
    (hperm : Permissions.VIEW_ONLY ∈ role.permissions)
    (hsvc : env.getAllTasksService wsId (buildFilters exampleQuery)
        (buildPagination exampleQuery) s = Except.ok result) :
    buildFilters q = claimFiltersAmended q ∧
    ((q.pageSize = none ∧ q.pageNumber = none) →
      buildPagination q = { pageSize := 10, pageNumber := 1 }) ∧
    buildFilters exampleQuery =
      { projectId := none, status := some ["a", "b"], priority := some ["x"],
        assignedTo := none, keyword := none, dueDate := none } ∧
    buildPagination exampleQuery = { pageSize := 5, pageNumber := 2 } ∧
    (getAllTasksController env req s).2.2 =
      [Event.getAllTasksCall
        { projectId := none, status := some ["a", "b"], priority := some ["x"],
          assignedTo := none, keyword := none, dueDate := none }
        { pageSize := 5, pageNumber := 2 }] ∧
    (getAllTasksController env req s).1 =
      Except.ok { status := 200, message := "All tasks fetched successfully",
                  task := none, list := some result } := by
  have h3 : buildFilters exampleQuery =
      { projectId := none, status := some ["a", "b"], priority := some ["x"],
        assignedTo := none, keyword := none, dueDate := none } := by decide
  have h4 : buildPagination exampleQuery = { pageSize := 5, pageNumber := 2 } := by decide
  refine ⟨?_, ?_, h3, h4, ?_, ?_⟩
  · simp [buildFilters, claimFiltersAmended, jsSplitParam_eq]
  · rintro ⟨h1, h2⟩
    simp [buildPagination, h1, h2, jsOrDefault]
  · have hsvc2 := hsvc
    rw [h3, h4] at hsvc2
    simp only [getAllTasksController, hq, hw, hr,
      roleGuard_ok role Permissions.VIEW_ONLY hperm, h3, h4, hsvc2]
  · simp only [getAllTasksController, hq, hw, hr,
      roleGuard_ok role Permissions.VIEW_ONLY hperm, hsvc, HTTPSTATUS_OK]

/-- Witness: the example request against the concrete environment. -/
theorem getAllTasks_filters_pagination_amended_witness :
    buildFilters emptyQuery = claimFiltersAmended emptyQuery ∧
    ((emptyQuery.pageSize = none ∧ emptyQuery.pageNumber = none) →
      buildPagination emptyQuery = { pageSize := 10, pageNumber := 1 }) ∧
    buildFilters exampleQuery =
      { projectId := none, status := some ["a", "b"], priority := some ["x"],
        assignedTo := none, keyword := none, dueDate := none } ∧
    buildPagination exampleQuery = { pageSize := 5, pageNumber := 2 } ∧
    (getAllTasksController testEnv testListReq testStore).2.2 =
      [Event.getAllTasksCall
        { projectId := none, status := some ["a", "b"], priority := some ["x"],
          assignedTo := none, keyword := none, dueDate := none }
        { pageSize := 5, pageNumber := 2 }] ∧
    (getAllTasksController testEnv testListReq testStore).1 =
      Except.ok { status := 200, message := "All tasks fetched successfully",
                  task := none, list := some { tasks := [], totalCount := 0 } } :=
  getAllTasks_filters_pagination_amended emptyQuery testEnv testListReq testStore fullRole
    { tasks := [], totalCount := 0 } "w1" rfl rfl rfl (by decide) rfl

/-- C10: the pagination defaults apply whenever `parseInt` produces a falsy
value (`NaN` or `0`), not only when the parameter is omitted: a pageSize
parsing to 0 or NaN yields 10, and a pageNumber parsing to 0 or NaN yields
1, so an explicit `pageSize=0` cannot be requested. -/
theorem pagination_defaults_on_falsy_parseInt (q : Query) :
    (∀ v, q.pageSize = some v → (parseIntJS v = none ∨ parseIntJS v = some 0) →
      (buildPagination q).pageSize = 10) ∧
    (∀ v, q.pageNumber = some v → (parseIntJS v = none ∨ parseIntJS v = some 0) →
      (buildPagination q).pageNumber = 1) := by
  constructor
  · intro v hv h
    rcases h with h | h <;> simp [buildPagination, hv, h, jsOrDefault]
  · intro v hv h
    rcases h with h | h <;> simp [buildPagination, hv, h, jsOrDefault]

/-- Witness: `pageSize=0` (falsy zero) and `pageNumber=abc` (NaN) both get
the defaults. -/
theorem pagination_defaults_on_falsy_parseInt_witness :
    (buildPagination zeroNanQuery).pageSize = 10 ∧
    (buildPagination zeroNanQuery).pageNumber = 1 :=
  ⟨(pagination_defaults_on_falsy_parseInt zeroNanQuery).1 "0" rfl (Or.inr (by decide)),
   (pagination_defaults_on_falsy_parseInt zeroNanQuery).2 "abc" rfl (Or.inl (by decide))⟩

end TaskNotify
